import Mathlib

set_option maxRecDepth 8000

/-!
Verification of the libghostty-vt control-sequence engines: the OSC
(Operating System Command) streaming parser, the SGR (Select Graphic
Rendition) attribute decoder, the key-event encoder, and the paste-safety
predicate. The repository ships only the C API headers
(src/Vendor/libghostty/include/ghostty/vt/...); the engine bodies are not
part of the repository sources, so every engine below is modelled from the
specification and the header contracts, with machine integers as `Nat`,
byte buffers as `List Nat`, nullable C handles as `Option`, and the
C result enum as an explicit inductive.
-/

/-- Result codes for libghostty-vt operations, from
src/Vendor/libghostty/include/ghostty/vt/result.h: `GHOSTTY_SUCCESS`,
`GHOSTTY_OUT_OF_MEMORY`, `GHOSTTY_INVALID_VALUE`. -/
inductive GhosttyResult
  | success
  | outOfMemory
  | invalidValue
deriving DecidableEq

/-! ## Paste safety (paste.h) -/

/-- Prefix test on byte lists: `bytesStartWith p l` is true iff `p` is an
initial segment of `l`. Helper for the substring scan of the paste-safety
predicate. -/
def bytesStartWith : List Nat → List Nat → Bool
  | [], _ => true
  | _ :: _, [] => false
  | p :: ps, b :: bs => p == b && bytesStartWith ps bs

/-- Substring search on byte lists: true iff `pat` occurs as a contiguous
run inside the haystack. Mirrors a byte-wise `indexOf` scan. -/
def containsSeq (pat : List Nat) : List Nat → Bool
  | [] => pat.isEmpty
  | b :: rest => bytesStartWith pat (b :: rest) || containsSeq pat rest

/-- Bracketed-paste-end byte sequence: ESC `[201~`. -/
def pasteEndSeq : List Nat := [0x1b, 0x5b, 0x32, 0x30, 0x31, 0x7e]

/-- Modelled from the spec: the body of `ghostty_paste_is_safe` (declared in
src/Vendor/libghostty/include/ghostty/vt/paste.h; the implementation is not
in the repository sources). Pure function of the byte buffer: data is
unsafe iff it contains a newline byte 0x0A or the literal
bracketed-paste-end sequence ESC `[201~`. -/
def ghostty_paste_is_safe (data : List Nat) : Bool :=
  !(data.contains 0x0a) && !(containsSeq pasteEndSeq data)

theorem bytesStartWith_iff (p l : List Nat) :
    bytesStartWith p l = true ↔ ∃ r, l = p ++ r := by
  induction p generalizing l with
  | nil => simp [bytesStartWith]
  | cons x xs ih =>
    cases l with
    | nil => simp [bytesStartWith]
    | cons b bs =>
      simp only [bytesStartWith, Bool.and_eq_true, beq_iff_eq, ih]
      constructor
      · rintro ⟨rfl, r, rfl⟩
        exact ⟨r, rfl⟩
      · rintro ⟨r, h⟩
        rw [List.cons_append] at h
        cases h
        exact ⟨rfl, r, rfl⟩

theorem containsSeq_iff (pat l : List Nat) :
    containsSeq pat l = true ↔ ∃ pre suf, l = pre ++ pat ++ suf := by
  induction l with
  | nil =>
    simp only [containsSeq, List.isEmpty_iff]
    constructor
    · rintro rfl
      exact ⟨[], [], rfl⟩
    · rintro ⟨pre, suf, h⟩
      rcases List.append_eq_nil.mp h.symm with ⟨h1, h2⟩
      exact (List.append_eq_nil.mp h1).2
  | cons b bs ih =>
    simp only [containsSeq, Bool.or_eq_true, bytesStartWith_iff, ih]
    constructor
    · rintro (⟨r, hr⟩ | ⟨pre, suf, h⟩)
      · exact ⟨[], r, by simp [hr]⟩
      · exact ⟨b :: pre, suf, by simp [h]⟩
    · rintro ⟨pre, suf, h⟩
      cases pre with
      | nil =>
        left
        exact ⟨suf, by simpa using h⟩
      | cons x xs =>
        right
        simp only [List.cons_append] at h
        cases h
        exact ⟨xs, suf, rfl⟩

/-! ## OSC parser (osc.h) -/

/-- OSC command types, from the `GhosttyOscCommandType` enum in
src/Vendor/libghostty/include/ghostty/vt/osc.h. -/
inductive GhosttyOscCommandType
  | invalid
  | changeWindowTitle
  | changeWindowIcon
  | promptStart
  | promptEnd
  | endOfInput
  | endOfCommand
  | clipboardContents
  | reportPwd
  | mouseShape
  | colorOperation
  | kittyColorProtocol
  | showDesktopNotification
  | hyperlinkStart
  | hyperlinkEnd
  | conemuSleep
  | conemuShowMessageBox
  | conemuChangeTabTitle
  | conemuProgressReport
  | conemuWaitInput
  | conemuGuimacro
deriving DecidableEq

/-- Modelled from the spec: the parsed OSC command variant (the repository
sources declare only the opaque `GhosttyOscCommand` handle; the concrete
tagged union lives in the missing implementation). A representative subset
of the roughly twenty kinds is modelled; string payloads are byte lists.
The clipboard kind retains the terminator byte because its semantics
require emitting a matching response format. -/
inductive GhosttyOscCommand
  | invalid
  | changeWindowTitle (title : List Nat)
  | changeWindowIcon (icon : List Nat)
  | promptStart
  | promptEnd
  | endOfInput
  | clipboardContents (kind : Nat) (payload : List Nat) (terminator : Nat)
  | reportPwd (url : List Nat)
  | mouseShape (shape : List Nat)
  | showDesktopNotification (title body : List Nat)
  | hyperlinkStart (params uri : List Nat)
  | hyperlinkEnd
deriving DecidableEq

/-- Modelled from the spec: the OSC parser instance behind the opaque
`GhosttyOscParser` handle. The streaming state machine accumulates fed
bytes into an internal growable buffer; finalization inspects the
accumulated bytes. -/
structure GhosttyOscParser where
  buf : List Nat
deriving DecidableEq

/-- Modelled from the spec: `ghostty_osc_new` yields a parser in the ground
state with an empty buffer (allocator plumbing is out of scope). -/
def ghostty_osc_new : GhosttyOscParser := ⟨[]⟩

/-- Modelled from the spec: `ghostty_osc_next` consumes one byte,
accumulating it into the parser's internal buffer. -/
def ghostty_osc_next (p : GhosttyOscParser) (b : Nat) : GhosttyOscParser :=
  ⟨p.buf ++ [b]⟩

/-- Feed a whole byte sequence to the parser, one byte at a time, through
`ghostty_osc_next`. -/
def oscFeed (p : GhosttyOscParser) (bs : List Nat) : GhosttyOscParser :=
  bs.foldl ghostty_osc_next p

/-- Modelled from the spec: `ghostty_osc_reset` clears the buffer and
returns the parser to its ground state without emitting a command. -/
def ghostty_osc_reset (_p : GhosttyOscParser) : GhosttyOscParser := ⟨[]⟩

/-- Split an OSC body into its semicolon-delimited fields. Always returns
at least one field. -/
def splitFields : List Nat → List (List Nat)
  | [] => [[]]
  | b :: rest =>
    if b == 0x3b then [] :: splitFields rest
    else
      match splitFields rest with
      | f :: fs => (b :: f) :: fs
      | [] => [[b]]

/-- ASCII decimal digit test on a byte. -/
def isDigitByte (b : Nat) : Bool := 0x30 ≤ b && b ≤ 0x39

/-- Parse a nonempty all-digit byte field as a decimal number. -/
def parseNatField (bs : List Nat) : Option Nat :=
  if bs.isEmpty then Option.none
  else if bs.all isDigitByte then
    some (bs.foldl (fun acc b => acc * 10 + (b - 0x30)) 0)
  else Option.none

/-- Modelled from the spec: finalization of the OSC grammar over the
accumulated body bytes - a leading numeric command id, semicolon-delimited
fields, command-specific sub-grammars. Returns `some` command for a
recognized grammar and `Option.none` when the bytes match no recognized
OSC grammar. Total over all byte sequences. -/
def oscTryParse (buf : List Nat) (terminator : Nat) : Option GhosttyOscCommand :=
  match splitFields buf with
  | [] => Option.none
  | idField :: rest =>
    match parseNatField idField with
    | Option.none => Option.none
    | some id =>
      match id, rest with
      | 0, [title] => some (.changeWindowTitle title)
      | 1, [icon] => some (.changeWindowIcon icon)
      | 2, [title] => some (.changeWindowTitle title)
      | 7, [url] => some (.reportPwd url)
      | 9, [body] => some (.showDesktopNotification [] body)
      | 22, [shape] => some (.mouseShape shape)
      | 52, [kindField, payload] =>
        some (.clipboardContents (kindField.headD 0) payload terminator)
      | 133, [[0x41]] => some .promptStart
      | 133, [[0x42]] => some .promptEnd
      | 133, [[0x43]] => some .endOfInput
      | 8, [params, uri] =>
        if uri.isEmpty then some .hyperlinkEnd
        else some (.hyperlinkStart params uri)
      | _, _ => Option.none

/-- Modelled from the spec: `ghostty_osc_end` finalizes parsing and returns
the parsed command handle. The `Option` return type models the nullable C
pointer; the function never returns `Option.none` - a recognized grammar
yields the matching kind and anything else yields the invalid command. -/
def ghostty_osc_end (p : GhosttyOscParser) (terminator : Nat) :
    Option GhosttyOscCommand :=
  some ((oscTryParse p.buf terminator).getD .invalid)

/-- Type tag of a parsed OSC command. -/
def oscCommandTypeOf : GhosttyOscCommand → GhosttyOscCommandType
  | .invalid => .invalid
  | .changeWindowTitle _ => .changeWindowTitle
  | .changeWindowIcon _ => .changeWindowIcon
  | .promptStart => .promptStart
  | .promptEnd => .promptEnd
  | .endOfInput => .endOfInput
  | .clipboardContents _ _ _ => .clipboardContents
  | .reportPwd _ => .reportPwd
  | .mouseShape _ => .mouseShape
  | .showDesktopNotification _ _ => .showDesktopNotification
  | .hyperlinkStart _ _ => .hyperlinkStart
  | .hyperlinkEnd => .hyperlinkEnd

/-- Modelled from the header contract: `ghostty_osc_command_type` accepts a
possibly-NULL command handle (modelled as `Option`) and returns
`GHOSTTY_OSC_COMMAND_INVALID` when the handle is NULL. -/
def ghostty_osc_command_type : Option GhosttyOscCommand → GhosttyOscCommandType
  | Option.none => .invalid
  | some c => oscCommandTypeOf c

/-- OSC command data types, from the `GhosttyOscCommandData` enum in
src/Vendor/libghostty/include/ghostty/vt/osc.h: the invalid data type
(never results in any extraction) and the window-title string. -/
inductive GhosttyOscCommandDataKind
  | invalid
  | changeWindowTitleStr
deriving DecidableEq

/-- Modelled from the header contract: `ghostty_osc_command_data` extracts
typed data from a possibly-NULL command handle. Returning `Option.none`
models returning `false` with the output pointer left unwritten; `some`
models returning `true` with the extracted bytes stored. -/
def ghostty_osc_command_data :
    Option GhosttyOscCommand → GhosttyOscCommandDataKind → Option (List Nat)
  | Option.none, _ => Option.none
  | some _, .invalid => Option.none
  | some (.changeWindowTitle t), .changeWindowTitleStr => some t
  | some _, _ => Option.none

theorem oscFeed_buf (p : GhosttyOscParser) (bs : List Nat) :
    (oscFeed p bs).buf = p.buf ++ bs := by
  induction bs generalizing p with
  | nil => simp [oscFeed]
  | cons b rest ih =>
    show (oscFeed (ghostty_osc_next p b) rest).buf = _
    rw [ih]
    simp [ghostty_osc_next]

/-! ## SGR attribute decoder (sgr.h) -/

/-- Separator marker attached to each SGR parameter position: semicolon or
colon (anything else is normalized to semicolon at configuration time, per
the `ghostty_sgr_set_params` contract). The marker at position `i` is the
separator standing between parameter `i` and parameter `i + 1`; the marker
on the last position is meaningless. -/
inductive SgrSep
  | semicolon
  | colon
deriving DecidableEq

/-- Underline style types, from the `GhosttySgrUnderline` enum in
src/Vendor/libghostty/include/ghostty/vt/sgr.h. -/
inductive GhosttySgrUnderline
  | none
  | single
  | double
  | curly
  | dotted
  | dashed
deriving DecidableEq

/-- SGR attribute tagged union, from the `GhosttySgrAttributeTag` enum and
`GhosttySgrAttributeValue` union in
src/Vendor/libghostty/include/ghostty/vt/sgr.h. The unknown variant
carries the full parameter run of the attempted attribute and the partial
prefix consumed before the mismatch was detected. -/
inductive GhosttySgrAttribute
  | unset
  | unknown (full part : List Nat)
  | bold
  | resetBold
  | italic
  | resetItalic
  | faint
  | underline (style : GhosttySgrUnderline)
  | resetUnderline
  | underlineColor (r g b : Nat)
  | underlineColor256 (idx : Nat)
  | resetUnderlineColor
  | overline
  | resetOverline
  | blink
  | resetBlink
  | inverse
  | resetInverse
  | invisible
  | resetInvisible
  | strikethrough
  | resetStrikethrough
  | directColorFg (r g b : Nat)
  | directColorBg (r g b : Nat)
  | bg8 (idx : Nat)
  | fg8 (idx : Nat)
  | resetFg
  | resetBg
  | brightBg8 (idx : Nat)
  | brightFg8 (idx : Nat)
  | bg256 (idx : Nat)
  | fg256 (idx : Nat)
deriving DecidableEq

/-- Length of the colon-joined run hanging off the current parameter: the
number of following parameters reachable through colon separators, given
the separator of the current position and the remaining list. -/
def colonRunLen : SgrSep → List (Nat × SgrSep) → Nat
  | .colon, (_, s2) :: r2 => colonRunLen s2 r2 + 1
  | _, _ => 0

/-- Map an SGR underline sub-selector value to its style. -/
def underlineStyleOf : Nat → Option GhosttySgrUnderline
  | 0 => some .none
  | 1 => some .single
  | 2 => some .double
  | 3 => some .curly
  | 4 => some .dotted
  | 5 => some .dashed
  | _ => Option.none

/-- Interpret the values following an extended-color introducer (38, 48 or
58) inside one colon-joined run: `2;r;g;b` direct color or `5;n` palette
color. -/
def extendedColorOf (mk2 : Nat → Nat → Nat → GhosttySgrAttribute)
    (mk5 : Nat → GhosttySgrAttribute) (vs : List Nat) :
    Option GhosttySgrAttribute :=
  match vs with
  | [2, r, g, b] =>
    if r ≤ 255 && g ≤ 255 && b ≤ 255 then some (mk2 r g b) else Option.none
  | [5, n] => if n ≤ 255 then some (mk5 n) else Option.none
  | _ => Option.none

/-- Modelled from the spec: decoding of one extended-color attribute
(introducers 38, 48, 58). A colon-joined run is one compound attribute
whose shape is judged as a whole; the legacy semicolon form consumes a
fixed count of subsequent parameters by position. Returns the decoded
attribute (`Option.none` marks an unrecognized run) and the number of
extra parameters consumed beyond the introducer. -/
def sgrExtended (mk2 : Nat → Nat → Nat → GhosttySgrAttribute)
    (mk5 : Nat → GhosttySgrAttribute) (s : SgrSep)
    (rest : List (Nat × SgrSep)) : Option GhosttySgrAttribute × Nat :=
  match s with
  | .colon =>
    let k := colonRunLen .colon rest
    match extendedColorOf mk2 mk5 ((rest.take k).map Prod.fst) with
    | some a => (some a, k)
    | Option.none => (Option.none, k)
  | .semicolon =>
    match rest with
    | (2, _) :: (r, _) :: (g, _) :: (b, _) :: _ =>
      if r ≤ 255 && g ≤ 255 && b ≤ 255 then (some (mk2 r g b), 4)
      else (Option.none, 4)
    | (5, _) :: (n, _) :: _ =>
      if n ≤ 255 then (some (mk5 n), 2) else (Option.none, 2)
    | (2, _) :: _ => (Option.none, rest.length)
    | (5, _) :: _ => (Option.none, rest.length)
    | (_, _) :: _ => (Option.none, 1)
    | [] => (Option.none, 0)

/-- Modelled from the spec: decoding of one attribute headed by parameter
`p` with separator `s` and remaining parameters `rest`. Simple attributes
consume one parameter; extended color forms consume a separator-dependent
variable count; the colon-only underline sub-selector (for example curly
underline 4:3) is recognized exclusively with a colon separator. Returns
the decoded attribute (`Option.none` marks an unrecognized run) and the
number of extra parameters consumed beyond `p`. -/
def sgrStep (p : Nat) (s : SgrSep) (rest : List (Nat × SgrSep)) :
    Option GhosttySgrAttribute × Nat :=
  match p with
  | 0 => (some .unset, 0)
  | 1 => (some .bold, 0)
  | 2 => (some .faint, 0)
  | 3 => (some .italic, 0)
  | 4 =>
    match s with
    | .semicolon => (some (.underline .single), 0)
    | .colon =>
      match colonRunLen .colon rest, rest with
      | 1, (n, _) :: _ =>
        match underlineStyleOf n with
        | some st => (some (.underline st), 1)
        | Option.none => (Option.none, 1)
      | 0, _ => (some (.underline .single), 0)
      | k, _ => (Option.none, k)
  | 5 => (some .blink, 0)
  | 6 => (some .blink, 0)
  | 7 => (some .inverse, 0)
  | 8 => (some .invisible, 0)
  | 9 => (some .strikethrough, 0)
  | 21 => (some (.underline .double), 0)
  | 22 => (some .resetBold, 0)
  | 23 => (some .resetItalic, 0)
  | 24 => (some .resetUnderline, 0)
  | 25 => (some .resetBlink, 0)
  | 27 => (some .resetInverse, 0)
  | 28 => (some .resetInvisible, 0)
  | 29 => (some .resetStrikethrough, 0)
  | 38 => sgrExtended .directColorFg .fg256 s rest
  | 39 => (some .resetFg, 0)
  | 48 => sgrExtended .directColorBg .bg256 s rest
  | 49 => (some .resetBg, 0)
  | 53 => (some .overline, 0)
  | 55 => (some .resetOverline, 0)
  | 58 => sgrExtended .underlineColor .underlineColor256 s rest
  | 59 => (some .resetUnderlineColor, 0)
  | n =>
    if 30 ≤ n && n ≤ 37 then (some (.fg8 (n - 30)), 0)
    else if 40 ≤ n && n ≤ 47 then (some (.bg8 (n - 40)), 0)
    else if 90 ≤ n && n ≤ 97 then (some (.brightFg8 (n - 90)), 0)
    else if 100 ≤ n && n ≤ 107 then (some (.brightBg8 (n - 100)), 0)
    else (Option.none, colonRunLen s rest)

/-- Modelled from the spec: `ghostty_sgr_set_params` makes a private copy
of the parameter list paired with per-position separators; a missing
separator array means all-semicolon. -/
def ghostty_sgr_set_params (params : List Nat) (seps : Option (List SgrSep)) :
    List (Nat × SgrSep) :=
  match seps with
  | Option.none => params.map (fun p => (p, SgrSep.semicolon))
  | some ss => params.zip ss

/-- Modelled from the spec: `ghostty_sgr_next` advances through the
remaining parameter list and yields one attribute, or signals exhaustion
(`Option.none`, the C `false` return) on an empty remainder. When a run
matches no known grammar the decoder emits the unknown variant carrying
the full attempted run and the consumed prefix, then advances past the
entire run. -/
def ghostty_sgr_next (ps : List (Nat × SgrSep)) :
    Option (GhosttySgrAttribute × List (Nat × SgrSep)) :=
  match ps with
  | [] => Option.none
  | (p, s) :: rest =>
    match sgrStep p s rest with
    | (some a, k) =>
      match a with
      | .unknown _ _ =>
        some (.unknown (p :: (rest.take k).map Prod.fst) [p], rest.drop k)
      | _ => some (a, rest.drop k)
    | (Option.none, k) =>
      some (.unknown (p :: (rest.take k).map Prod.fst) [p], rest.drop k)

/-- Run `ghostty_sgr_next` under explicit fuel; structural recursion so
that concrete decodes evaluate by `decide`. -/
def sgrAllFuel : Nat → List (Nat × SgrSep) → List GhosttySgrAttribute
  | 0, _ => []
  | Nat.succ f, ps =>
    match ghostty_sgr_next ps with
    | Option.none => []
    | some (a, rest) => a :: sgrAllFuel f rest

/-- Iterate `ghostty_sgr_next` to exhaustion: the full attribute stream
decoded from a configured parameter list. Fuel equal to the list length
suffices because every successful call consumes at least one parameter. -/
def sgrAll (ps : List (Nat × SgrSep)) : List GhosttySgrAttribute :=
  sgrAllFuel ps.length ps

/-! ## Supporting lemmas for the SGR iteration claims -/

theorem sgrAllFuel_length (f : Nat) (ps : List (Nat × SgrSep)) :
    (sgrAllFuel f ps).length ≤ f := by
  induction f generalizing ps with
  | zero => simp [sgrAllFuel]
  | succ f ih =>
    simp only [sgrAllFuel]
    rcases h : ghostty_sgr_next ps with _ | ⟨a, rest⟩
    · simp
    · simpa using ih rest

/-! ## Claim theorems -/

/-- Claim C7: `ghostty_paste_is_safe` is a pure function of the byte buffer
returning unsafe (false) exactly when the buffer contains the newline byte
0x0A or the literal bracketed-paste-end sequence ESC `[201~`; in
particular the bytes of "hello" and the empty buffer are safe while the
bytes of "a", newline, "b" and of ESC `[201~` are unsafe. -/
theorem paste_is_safe_spec :
    (∀ data : List Nat, ghostty_paste_is_safe data = false ↔
      (0x0a ∈ data ∨ ∃ pre suf, data = pre ++ pasteEndSeq ++ suf)) ∧
    ghostty_paste_is_safe [104, 101, 108, 108, 111] = true ∧
    ghostty_paste_is_safe [97, 0x0a, 98] = false ∧
    ghostty_paste_is_safe [0x1b, 0x5b, 0x32, 0x30, 0x31, 0x7e] = false ∧
    ghostty_paste_is_safe [] = true := by
  refine ⟨fun data => ?_, by decide, by decide, by decide, by decide⟩
  simp only [ghostty_paste_is_safe, Bool.and_eq_false_iff, Bool.not_eq_false',
    ← containsSeq_iff pasteEndSeq data, List.elem_iff]

/-- Claim C1: for every byte sequence fed byte-by-byte through
`ghostty_osc_next` and finalized with `ghostty_osc_end`, the returned
command handle is non-null (the total Lean function always yields `some`,
so the call also terminates), and when the accumulated bytes match no
recognized OSC grammar the returned command is the invalid command rather
than an error. -/
theorem osc_end_nonnull_total (bs : List Nat) (t : Nat) :
    ∃ c, ghostty_osc_end (oscFeed ghostty_osc_new bs) t = some c ∧
      (oscTryParse bs t = Option.none → c = GhosttyOscCommand.invalid) := by
  refine ⟨(oscTryParse bs t).getD .invalid, ?_, ?_⟩
  · simp [ghostty_osc_end, oscFeed_buf, ghostty_osc_new]
  · intro h
    simp [h]

/-- Witness for C1 at a concrete adversarial input: the single byte 0x78
matches no OSC grammar, and finalization yields the invalid command. -/
theorem osc_end_nonnull_total_witness :
    ghostty_osc_end (oscFeed ghostty_osc_new [0x78]) 7 =
      some GhosttyOscCommand.invalid := by
  obtain ⟨c, h1, h2⟩ := osc_end_nonnull_total [0x78] 7
  rw [h1, h2 (by decide)]

/-- Claim C6: replaying an identical byte sequence and terminator on the
same parser after `ghostty_osc_reset` yields a command identical in kind
and payload to the first parse from a fresh parser. -/
theorem osc_reset_replay_deterministic (bs : List Nat) (t : Nat) :
    ghostty_osc_end
        (oscFeed (ghostty_osc_reset (oscFeed ghostty_osc_new bs)) bs) t =
      ghostty_osc_end (oscFeed ghostty_osc_new bs) t := rfl

/-- Claim C10: querying a NULL OSC command handle is safe and yields
benign defaults - `ghostty_osc_command_type` on NULL returns the invalid
type, and `ghostty_osc_command_data` extracts nothing (returns false with
the output pointer unwritten, modelled as `Option.none`) whenever the
handle is NULL or the requested data type is the invalid data type. -/
theorem osc_null_command_queries :
    ghostty_osc_command_type Option.none = GhosttyOscCommandType.invalid ∧
    (∀ d, ghostty_osc_command_data Option.none d = Option.none) ∧
    (∀ c, ghostty_osc_command_data c .invalid = Option.none) := by
  refine ⟨rfl, fun d => by cases d <;> rfl, fun c => ?_⟩
  rcases c with _ | c
  · rfl
  · cases c <;> rfl

/-- Claim C8: with all-semicolon separators, parameters 1, 31 decode to
exactly bold followed by the 8-color foreground with palette index 1, in
that order, and parameters 38, 2, 255, 0, 0 decode to exactly one direct
RGB foreground attribute with components 255, 0, 0. -/
theorem sgr_example_decodes :
    sgrAll (ghostty_sgr_set_params [1, 31] Option.none) =
      [GhosttySgrAttribute.bold, GhosttySgrAttribute.fg8 1] ∧
    sgrAll (ghostty_sgr_set_params [38, 2, 255, 0, 0] Option.none) =
      [GhosttySgrAttribute.directColorFg 255 0 0] := by
  exact ⟨by decide, by decide⟩

/-- Claim C2: the parameters 4 and 3 joined by a colon separator decode to
exactly one underline attribute with the curly style, while the same two
values joined by a semicolon decode under the legacy per-parameter grammar
to two independent attributes - single underline then italic - and not to
one compound attribute. -/
theorem sgr_curly_underline_separator :
    sgrAll (ghostty_sgr_set_params [4, 3]
        (some [SgrSep.colon, SgrSep.semicolon])) =
      [GhosttySgrAttribute.underline GhosttySgrUnderline.curly] ∧
    sgrAll (ghostty_sgr_set_params [4, 3] Option.none) =
      [GhosttySgrAttribute.underline GhosttySgrUnderline.single,
        GhosttySgrAttribute.italic] := by
  exact ⟨by decide, by decide⟩

/-- Claim C5: SGR iteration is total - `ghostty_sgr_next` signals
exhaustion exactly on the empty remainder (so it returns false after
finitely many calls), every call that yields an attribute consumes at
least one parameter position (the remainder strictly shrinks, and the list
model reads no position beyond the list), after emitting an unknown
attribute the iteration has advanced past exactly the full unrecognized
run, and the whole decoded stream is no longer than the parameter list. -/
theorem sgr_iteration_total (ps : List (Nat × SgrSep)) :
    (ghostty_sgr_next ps = Option.none ↔ ps = []) ∧
    (∀ a rest, ghostty_sgr_next ps = some (a, rest) →
      rest.length < ps.length ∧
      ∀ full part, a = GhosttySgrAttribute.unknown full part →
        ps.map Prod.fst = full ++ rest.map Prod.fst) ∧
    (sgrAll ps).length ≤ ps.length := by
  refine ⟨?_, ?_, sgrAllFuel_length ps.length ps⟩
  · cases ps with
    | nil => simp [ghostty_sgr_next]
    | cons hd tl =>
      obtain ⟨p, s⟩ := hd
      simp only [ghostty_sgr_next]
      rcases hstep : sgrStep p s tl with ⟨o, k⟩
      cases o with
      | none => simp
      | some a => cases a <;> simp
  · intro a rest h
    cases ps with
    | nil => simp [ghostty_sgr_next] at h
    | cons hd tl =>
      obtain ⟨p, s⟩ := hd
      simp only [ghostty_sgr_next] at h
      rcases hstep : sgrStep p s tl with ⟨o, k⟩
      rw [hstep] at h
      have hlen : (tl.drop k).length < (⟨p, s⟩ :: tl : List (Nat × SgrSep)).length := by
        simp only [List.length_drop, List.length_cons]
        omega
      have hcanon : ((⟨p, s⟩ :: tl : List (Nat × SgrSep)).map Prod.fst) =
          (p :: (tl.take k).map Prod.fst) ++ (tl.drop k).map Prod.fst := by
        simp only [List.map_cons, List.cons_append]
        rw [← List.map_append, List.take_append_drop]
      cases o with
      | none =>
        simp only [Option.some.injEq, Prod.mk.injEq] at h
        obtain ⟨rfl, rfl⟩ := h
        exact ⟨hlen, fun full part hfp => by cases hfp; exact hcanon⟩
      | some a0 =>
        cases a0 <;>
          (simp only [Option.some.injEq, Prod.mk.injEq] at h
           obtain ⟨rfl, rfl⟩ := h
           exact ⟨hlen, fun full part hfp => by cases hfp <;> exact hcanon⟩)

/-- Witness for C5 at a concrete input: the unrecognized parameter 99
yields one unknown attribute consuming the whole one-element run. -/
theorem sgr_iteration_total_witness :
    ([] : List (Nat × SgrSep)).length < [((99 : Nat), SgrSep.semicolon)].length ∧
    [((99 : Nat), SgrSep.semicolon)].map Prod.fst =
      [99] ++ ([] : List (Nat × SgrSep)).map Prod.fst := by
  have h := (sgr_iteration_total [((99 : Nat), SgrSep.semicolon)]).2.1
    (.unknown [99] [99]) [] (by decide)
  exact ⟨h.1, h.2 [99] [99] rfl⟩

/-! ## Key event encoder (key/event.h, key/encoder.h) -/

/-- Keyboard input event types, from the `GhosttyKeyAction` enum in
src/Vendor/libghostty/include/ghostty/vt/key/event.h. -/
inductive GhosttyKeyAction
  | release
  | press
  | repeatKey
deriving DecidableEq

/-- Physical key codes, from the `GhosttyKey` enum in
src/Vendor/libghostty/include/ghostty/vt/key/event.h (a representative
subset of the roughly 190 W3C physical codes: the letters and the
functional and arrow keys exercised by the encoder model). -/
inductive GhosttyKey
  | unidentified
  | keyA | keyB | keyC | keyD | keyE | keyF | keyG | keyH | keyI | keyJ
  | keyK | keyL | keyM | keyN | keyO | keyP | keyQ | keyR | keyS | keyT
  | keyU | keyV | keyW | keyX | keyY | keyZ
  | enter
  | tab
  | space
  | backspace
  | escape
  | arrowUp
  | arrowDown
  | arrowLeft
  | arrowRight
deriving DecidableEq

/-- macOS option key behavior, from the `GhosttyOptionAsAlt` enum in
src/Vendor/libghostty/include/ghostty/vt/key/encoder.h: off, both sides,
left side only, right side only. -/
inductive GhosttyOptionAsAlt
  | off
  | both
  | leftOnly
  | rightOnly
deriving DecidableEq

/-- Key event record behind the opaque `GhosttyKeyEvent` handle: action,
physical key, modifier bitmask, consumed-modifier bitmask, composing flag,
generated UTF-8 text (borrowed bytes) and unshifted Unicode codepoint, per
src/Vendor/libghostty/include/ghostty/vt/key/event.h. -/
structure GhosttyKeyEvent where
  action : GhosttyKeyAction
  key : GhosttyKey
  mods : Nat
  consumedMods : Nat
  composing : Bool
  utf8 : List Nat
  unshiftedCodepoint : Nat
deriving DecidableEq

/-- Modelled from the header contract: `ghostty_key_event_new` creates a
key event with default (zeroed) values. -/
def ghostty_key_event_new : GhosttyKeyEvent :=
  ⟨.release, .unidentified, 0, 0, false, [], 0⟩

/-- Encoder options, per the `GhosttyKeyEncoderOption` enum of
src/Vendor/libghostty/include/ghostty/vt/key/encoder.h: the five boolean
terminal modes, the Kitty protocol flag bitmask (5 independent bits) and
the macOS option-as-alt mode. -/
structure GhosttyKeyEncoderOptions where
  cursorKeyApplication : Bool
  keypadKeyApplication : Bool
  ignoreKeypadWithNumlock : Bool
  altSendsEsc : Bool
  modifyOtherKeysState2 : Bool
  kittyFlags : Nat
  macosOptionAsAlt : GhosttyOptionAsAlt
deriving DecidableEq

/-- Modelled from the header contract: `ghostty_key_encoder_new` creates an
encoder with default options (all modes off, Kitty protocol disabled). -/
def ghostty_key_encoder_new : GhosttyKeyEncoderOptions :=
  ⟨false, false, false, false, false, 0, .off⟩

/-- Key encoder option identifiers, from the `GhosttyKeyEncoderOption` enum
in src/Vendor/libghostty/include/ghostty/vt/key/encoder.h. -/
inductive GhosttyKeyEncoderOption
  | cursorKeyApplication
  | keypadKeyApplication
  | ignoreKeypadWithNumlock
  | altSendsEsc
  | modifyOtherKeysState2
  | kittyFlags
  | macosOptionAsAlt
deriving DecidableEq

/-- Typed view of the untyped `const void *` option value accepted by
`ghostty_key_encoder_setopt`: a boolean for the terminal modes, a bitmask
for the Kitty flags, a mode for option-as-alt. -/
inductive GhosttyKeyEncoderOptValue
  | boolVal (b : Bool)
  | flagsVal (f : Nat)
  | optionAsAltVal (m : GhosttyOptionAsAlt)
deriving DecidableEq

/-- Modelled from the header contract: `ghostty_key_encoder_setopt` sets
one configuration option. A null value pointer (`Option.none`) does
nothing - it does not reset the value to the default. A value whose type
does not match the option identifier also leaves the options unchanged. -/
def ghostty_key_encoder_setopt (o : GhosttyKeyEncoderOptions)
    (opt : GhosttyKeyEncoderOption)
    (value : Option GhosttyKeyEncoderOptValue) : GhosttyKeyEncoderOptions :=
  match value with
  | Option.none => o
  | some v =>
    match opt, v with
    | .cursorKeyApplication, .boolVal b => { o with cursorKeyApplication := b }
    | .keypadKeyApplication, .boolVal b => { o with keypadKeyApplication := b }
    | .ignoreKeypadWithNumlock, .boolVal b =>
      { o with ignoreKeypadWithNumlock := b }
    | .altSendsEsc, .boolVal b => { o with altSendsEsc := b }
    | .modifyOtherKeysState2, .boolVal b => { o with modifyOtherKeysState2 := b }
    | .kittyFlags, .flagsVal f => { o with kittyFlags := f }
    | .macosOptionAsAlt, .optionAsAltVal m => { o with macosOptionAsAlt := m }
    | _, _ => o

/-- Bit test on a Nat bitmask: true iff bit `i` is set. -/
def bitSet (mask i : Nat) : Bool := mask / 2 ^ i % 2 == 1

/-- Modifier bit positions, per the `GHOSTTY_MODS_*` constants of
src/Vendor/libghostty/include/ghostty/vt/key/event.h: shift 0, ctrl 1,
alt 2, super 3, caps lock 4, num lock 5, and the per-side bits 6-9. -/
def modsShift (m : Nat) : Bool := bitSet m 0

/-- Ctrl modifier bit (bit 1) of the modifier bitmask. -/
def modsCtrl (m : Nat) : Bool := bitSet m 1

/-- Alt modifier bit (bit 2) of the modifier bitmask. -/
def modsAlt (m : Nat) : Bool := bitSet m 2

/-- Super modifier bit (bit 3) of the modifier bitmask. -/
def modsSuper (m : Nat) : Bool := bitSet m 3

/-- Caps-lock bit (bit 4) of the modifier bitmask. -/
def modsCapsLock (m : Nat) : Bool := bitSet m 4

/-- Num-lock bit (bit 5) of the modifier bitmask. -/
def modsNumLock (m : Nat) : Bool := bitSet m 5

/-- Right-alt side bit (bit 8) of the modifier bitmask, meaningful only
when the alt bit is set. -/
def modsAltSide (m : Nat) : Bool := bitSet m 8

/-- Kitty protocol flag bits, per the `GHOSTTY_KITTY_KEY_*` constants of
src/Vendor/libghostty/include/ghostty/vt/key/encoder.h: disambiguate 0,
report-events 1, report-alternates 2, report-all 3, report-associated 4. -/
def kittyReportEvents (f : Nat) : Bool := bitSet f 1

/-- Kitty report-associated-text flag (bit 4). -/
def kittyReportAssociated (f : Nat) : Bool := bitSet f 4

/-- Base Unicode codepoint of a physical key on the unshifted US layout;
zero for keys with no such codepoint. -/
def keyCodepoint : GhosttyKey → Nat
  | .unidentified => 0
  | .keyA => 97 | .keyB => 98 | .keyC => 99 | .keyD => 100 | .keyE => 101
  | .keyF => 102 | .keyG => 103 | .keyH => 104 | .keyI => 105 | .keyJ => 106
  | .keyK => 107 | .keyL => 108 | .keyM => 109 | .keyN => 110 | .keyO => 111
  | .keyP => 112 | .keyQ => 113 | .keyR => 114 | .keyS => 115 | .keyT => 116
  | .keyU => 117 | .keyV => 118 | .keyW => 119 | .keyX => 120 | .keyY => 121
  | .keyZ => 122
  | .enter => 13
  | .tab => 9
  | .space => 32
  | .backspace => 127
  | .escape => 27
  | .arrowUp => 0 | .arrowDown => 0 | .arrowLeft => 0 | .arrowRight => 0

/-- Effective unshifted codepoint of an event: the event's unshifted
codepoint when set, otherwise the key's base codepoint. -/
def effectiveCodepoint (ev : GhosttyKeyEvent) : Nat :=
  if ev.unshiftedCodepoint ≠ 0 then ev.unshiftedCodepoint
  else keyCodepoint ev.key

/-- Decimal digit expansion of a number as ASCII bytes, under explicit
fuel for structural recursion. -/
def decDigitsAux : Nat → Nat → List Nat
  | 0, _ => []
  | Nat.succ f, n =>
    if n < 10 then [0x30 + n]
    else decDigitsAux f (n / 10) ++ [0x30 + n % 10]

/-- ASCII decimal byte representation of a number. -/
def decBytes (n : Nat) : List Nat := decDigitsAux (n + 1) n

/-- Kitty CSI modifier-field value: one plus the protocol encoding of the
modifier bitmask (shift 1, alt 2, ctrl 4, super 8, caps lock 64,
num lock 128). -/
def kittyModifierValue (m : Nat) : Nat :=
  1 + (if modsShift m then 1 else 0) + (if modsAlt m then 2 else 0) +
    (if modsCtrl m then 4 else 0) + (if modsSuper m then 8 else 0) +
    (if modsCapsLock m then 64 else 0) + (if modsNumLock m then 128 else 0)

/-- Kitty CSI event-type field value: press 1, repeat 2, release 3. -/
def kittyEventType : GhosttyKeyAction → Nat
  | .press => 1
  | .repeatKey => 2
  | .release => 3

/-- Modelled from the spec: the Kitty-protocol arm of the encoder. Emits
the Kitty CSI grammar - CSI, key code, optional semicolon-prefixed
modifier field with a colon-appended event-type sub-field when the
report-events flag is set, an optional semicolon-prefixed associated-text
field when that flag is set, and the final byte `u`. -/
def encodeKitty (o : GhosttyKeyEncoderOptions) (ev : GhosttyKeyEvent) :
    List Nat :=
  let code := effectiveCodepoint ev
  if code == 0 then []
  else
    let modVal := kittyModifierValue ev.mods
    let et := kittyEventType ev.action
    let needMod := modVal ≠ 1 || kittyReportEvents o.kittyFlags
    [0x1b, 0x5b] ++ decBytes code ++
      (if needMod then
        [0x3b] ++ decBytes modVal ++
          (if kittyReportEvents o.kittyFlags then [0x3a] ++ decBytes et
           else [])
      else []) ++
      (if kittyReportAssociated o.kittyFlags && !ev.utf8.isEmpty &&
          ev.action ≠ .release then
        [0x3b] ++ List.intercalate [0x3a] (ev.utf8.map decBytes)
      else []) ++
      [0x75]

/-- Whether the macOS option-as-alt setting lets the pressed alt side act
as alt for escape-prefixing purposes. -/
def optionAsAltApplies (o : GhosttyKeyEncoderOptions) (m : Nat) : Bool :=
  match o.macosOptionAsAlt with
  | .off => true
  | .both => true
  | .leftOnly => !modsAltSide m
  | .rightOnly => modsAltSide m

/-- Control-character mapping for Ctrl plus a base codepoint: letters map
to 0x01-0x1A, space to NUL, left bracket to ESC. -/
def ctrlByte : Nat → Option Nat
  | 32 => some 0
  | 91 => some 27
  | c => if 97 ≤ c && c ≤ 122 then some (c - 96) else Option.none

/-- Final byte of the cursor-key escape sequence for the arrow keys. -/
def cursorKeyFinal : GhosttyKey → Option Nat
  | .arrowUp => some 0x41
  | .arrowDown => some 0x42
  | .arrowRight => some 0x43
  | .arrowLeft => some 0x44
  | _ => Option.none

/-- Modelled from the spec: the legacy encoding arm. Release events emit
nothing; cursor keys emit SS3 or CSI sequences gated by cursor-key
application mode; Ctrl plus a mappable codepoint emits the control
character; otherwise an unmodified printable key with generated text and
no active composition passes its UTF-8 text through unchanged; remaining
events emit nothing. Alt prepends ESC when alt-sends-escape is enabled and
the option-as-alt gate admits the pressed side. -/
def encodeLegacy (o : GhosttyKeyEncoderOptions) (ev : GhosttyKeyEvent) :
    List Nat :=
  if ev.action = .release then []
  else
    let altEsc := o.altSendsEsc && modsAlt ev.mods && optionAsAltApplies o ev.mods
    let pre := if altEsc then [0x1b] else []
    match cursorKeyFinal ev.key with
    | some fin =>
      pre ++ (if o.cursorKeyApplication then [0x1b, 0x4f, fin]
              else [0x1b, 0x5b, fin])
    | Option.none =>
      if modsCtrl ev.mods then
        match ctrlByte (effectiveCodepoint ev) with
        | some b => pre ++ [b]
        | Option.none => []
      else if !ev.composing && !ev.utf8.isEmpty then pre ++ ev.utf8
      else []

/-- Modelled from the spec: the xterm modify-other-keys level-2 CSI form,
emitted for events that are not unmodified plain printable keys. -/
def encodeModifyOther (ev : GhosttyKeyEvent) : List Nat :=
  [0x1b, 0x5b, 0x32, 0x37, 0x3b] ++ decBytes (kittyModifierValue ev.mods) ++
    [0x3b] ++ decBytes (effectiveCodepoint ev) ++ [0x7e]

/-- Whether the modify-other-keys arm applies: a press or repeat of a key
with a codepoint carrying modifiers beyond plain input. -/
def modifyOtherApplies (ev : GhosttyKeyEvent) : Bool :=
  ev.action ≠ .release && kittyModifierValue ev.mods ≠ 1 &&
    effectiveCodepoint ev ≠ 0

/-- Modelled from the spec: the full key encoding as a pure function of
(event, options), following the strict arm precedence - any Kitty flag
set takes the Kitty CSI grammar; else modify-other-keys level 2 when
enabled and applicable; else the legacy encoding. -/
def encodeKeyBytes (o : GhosttyKeyEncoderOptions) (ev : GhosttyKeyEvent) :
    List Nat :=
  if o.kittyFlags ≠ 0 then encodeKitty o ev
  else if o.modifyOtherKeysState2 && modifyOtherApplies ev then
    encodeModifyOther ev
  else encodeLegacy o ev

/-- Modelled from the header contract: `ghostty_key_encoder_encode` writes
the encoded sequence into a caller buffer of the given size. The result
triple models (return code, value stored in out_len, bytes written): a
too-small buffer yields the out-of-memory code with out_len holding the
required size and nothing written; otherwise success with out_len holding
the byte count and the sequence written. -/
def ghostty_key_encoder_encode (o : GhosttyKeyEncoderOptions)
    (ev : GhosttyKeyEvent) (bufSize : Nat) :
    GhosttyResult × Nat × List Nat :=
  let seq := encodeKeyBytes o ev
  if bufSize < seq.length then (.outOfMemory, seq.length, [])
  else (.success, seq.length, seq)

/-- Key event for Ctrl plus the C key pressed: action press, physical key
C, modifier bitmask with only the ctrl bit (bit 1) set, as in the usage
example of src/Vendor/libghostty/include/ghostty/vt/key.h. -/
def ctrlCPressEvent : GhosttyKeyEvent :=
  { ghostty_key_event_new with action := .press, key := .keyC, mods := 2 }

/-- Claim C4: encoding a press of key C with the Ctrl modifier under
default encoder options produces exactly the single byte 0x03; the same
event with all five Kitty protocol flags set produces a Kitty CSI
sequence whose modifier field equals 5 and whose event-type field equals
1 (the bytes ESC, opening bracket, 9, 9, semicolon, 5, colon, 1, u). -/
theorem key_encode_ctrl_c :
    ghostty_key_encoder_encode ghostty_key_encoder_new ctrlCPressEvent 128 =
      (GhosttyResult.success, 1, [0x03]) ∧
    ghostty_key_encoder_encode
        (ghostty_key_encoder_setopt ghostty_key_encoder_new .kittyFlags
          (some (.flagsVal 31))) ctrlCPressEvent 128 =
      (GhosttyResult.success, 9,
        [0x1b, 0x5b] ++ decBytes 99 ++ [0x3b] ++
          decBytes (kittyModifierValue ctrlCPressEvent.mods) ++ [0x3a] ++
          decBytes (kittyEventType ctrlCPressEvent.action) ++ [0x75]) ∧
    kittyModifierValue ctrlCPressEvent.mods = 5 ∧
    kittyEventType ctrlCPressEvent.action = 1 := by
  exact ⟨by decide, by decide, by decide, by decide⟩

/-- Claim C3: probing `ghostty_key_encoder_encode` with a zero-length
buffer on an event that produces output returns the out-of-memory code
with out_len equal to exactly the byte count that a subsequent call with
a buffer of that size writes on success, while an event that legitimately
produces no output returns success with out_len zero - the two outcomes
are always distinguishable. -/
theorem key_encode_zero_buffer_probe (o : GhosttyKeyEncoderOptions)
    (ev : GhosttyKeyEvent) :
    ((encodeKeyBytes o ev).length ≠ 0 →
      ghostty_key_encoder_encode o ev 0 =
        (GhosttyResult.outOfMemory, (encodeKeyBytes o ev).length, []) ∧
      ghostty_key_encoder_encode o ev (encodeKeyBytes o ev).length =
        (GhosttyResult.success, (encodeKeyBytes o ev).length,
          encodeKeyBytes o ev)) ∧
    ((encodeKeyBytes o ev).length = 0 →
      ghostty_key_encoder_encode o ev 0 = (GhosttyResult.success, 0, [])) := by
  constructor
  · intro h
    constructor
    · simp [ghostty_key_encoder_encode, Nat.pos_of_ne_zero h]
    · simp [ghostty_key_encoder_encode]
  · intro h
    have hnil : encodeKeyBytes o ev = [] := List.length_eq_zero.mp h
    simp [ghostty_key_encoder_encode, hnil]

/-- Witness for C3 at concrete inputs: the Ctrl-C press needs one byte
(probe reports out-of-memory with required size 1, a one-byte buffer
succeeds), while the default zeroed event produces no output and the
zero-length-buffer call reports success with zero length. -/
theorem key_encode_zero_buffer_probe_witness :
    ghostty_key_encoder_encode ghostty_key_encoder_new ctrlCPressEvent 0 =
      (GhosttyResult.outOfMemory, 1, []) ∧
    ghostty_key_encoder_encode ghostty_key_encoder_new ctrlCPressEvent 1 =
      (GhosttyResult.success, 1, [0x03]) ∧
    ghostty_key_encoder_encode ghostty_key_encoder_new ghostty_key_event_new 0 =
      (GhosttyResult.success, 0, []) := by
  have h1 := (key_encode_zero_buffer_probe ghostty_key_encoder_new
    ctrlCPressEvent).1 (by decide)
  have h2 := (key_encode_zero_buffer_probe ghostty_key_encoder_new
    ghostty_key_event_new).2 (by decide)
  exact ⟨h1.1, h1.2, h2⟩

/-- Claim C9: calling `ghostty_key_encoder_setopt` with a null value
pointer is a no-op for every option identifier - the configured options
are left entirely unchanged (no default is restored), a subsequent encode
behaves exactly as if the call had not been made, and setopt calls with
non-null values for distinct options commute, so they may be issued in
any order before encoding. -/
theorem setopt_null_noop (o : GhosttyKeyEncoderOptions)
    (opt : GhosttyKeyEncoderOption) :
    ghostty_key_encoder_setopt o opt Option.none = o ∧
    (∀ ev bufSize,
      ghostty_key_encoder_encode (ghostty_key_encoder_setopt o opt Option.none)
          ev bufSize =
        ghostty_key_encoder_encode o ev bufSize) ∧
    (∀ opt2 v v2, opt ≠ opt2 →
      ghostty_key_encoder_setopt
          (ghostty_key_encoder_setopt o opt (some v)) opt2 (some v2) =
        ghostty_key_encoder_setopt
          (ghostty_key_encoder_setopt o opt2 (some v2)) opt (some v)) := by
  refine ⟨rfl, fun ev bufSize => rfl, ?_⟩
  intro opt2 v v2 hne
  cases opt <;> cases opt2 <;>
    first
      | exact absurd rfl hne
      | (cases v <;> cases v2 <;> rfl)

/-- Witness for C9 at concrete inputs: a null-valued setopt on the default
options is the identity, and setting cursor-key application mode and the
Kitty flags in either order yields the same configuration. -/
theorem setopt_null_noop_witness :
    ghostty_key_encoder_setopt ghostty_key_encoder_new .cursorKeyApplication
        Option.none = ghostty_key_encoder_new ∧
    ghostty_key_encoder_setopt
        (ghostty_key_encoder_setopt ghostty_key_encoder_new
          .cursorKeyApplication (some (.boolVal true)))
        .kittyFlags (some (.flagsVal 31)) =
      ghostty_key_encoder_setopt
        (ghostty_key_encoder_setopt ghostty_key_encoder_new .kittyFlags
          (some (.flagsVal 31)))
        .cursorKeyApplication (some (.boolVal true)) := by
  have h := setopt_null_noop ghostty_key_encoder_new .cursorKeyApplication
  exact ⟨h.1, h.2.2 .kittyFlags (.boolVal true) (.flagsVal 31) (by decide)⟩
